import Mathlib

set_option maxRecDepth 10000

/-!
Verification of the answer-synthesis and citation pipeline of
src/api/db/services/dialog_service.py (ragflow-plus).

The Python source is shallowly embedded: answer texts are Lean strings,
regular-expression scans over the citation-marker grammar are embedded as
operations over an explicit fragment decomposition, external collaborators
(retriever, chat model, TTS adapter, tabular retrieval) are oracle fields of
an environment record, and the generator protocol of the chat entry point is
embedded as the ordered list of yielded envelopes together with the ordered
list of external-call events performed before termination.  Wall-clock
diagnostics (timing trace appended to the prompt, created_at) and logging are
elided, as is the textual content of prompts sent to the external model: the
model output is an oracle, so prompt text is unobservable in this model.
-/

namespace RagflowPlus

/-! ## Generic string machinery (executable, kernel-reducible)

Regex scans of the source are embedded over List Char.  All recursions are
structural or fuel-based so that concrete witnesses evaluate inside the
kernel. -/

/-- Lowercase a character list, embedding the Python lower() call (ASCII). -/
def lowerL (l : List Char) : List Char := l.map Char.toLower

/-- Decide whether pat occurs as a contiguous substring of hay. -/
def containsSub (hay pat : List Char) : Bool :=
  (List.range (hay.length + 1)).any (fun i => pat.isPrefixOf (hay.drop i))

/-- All start indices at which pat occurs as a contiguous substring of l. -/
def occIdxs (pat l : List Char) : List Nat :=
  (List.range (l.length + 1)).filter (fun i => pat.isPrefixOf (l.drop i))

/-- Fuel-driven worker for replaceAll. -/
def replaceAllGo (pat rep : List Char) : Nat → List Char → List Char
| _, [] => []
| 0, l => l
| fuel + 1, c :: rest =>
  if pat.isPrefixOf (c :: rest) ∧ pat ≠ [] then
    rep ++ replaceAllGo pat rep fuel ((c :: rest).drop pat.length)
  else c :: replaceAllGo pat rep fuel rest

/-- Replace every non-overlapping occurrence of pat by rep, scanning left to
right, embedding the Python str.replace semantics. -/
def replaceAll (pat rep l : List Char) : List Char :=
  replaceAllGo pat rep l.length l

/-- String-level wrapper of replaceAll. -/
def replaceStr (s pat rep : String) : String :=
  String.mk (replaceAll pat.data rep.data s.data)

/-! ## Data model

KnowledgeChunk, doc aggregation entries and retrieval results, following the
dict shapes the source reads and writes.  A chunk vector is a float list in
the source; only presence and emptiness of the vector are ever inspected, so
its elements are embedded as integers. -/

/-- KnowledgeChunk as consumed by decorate_answer: doc_id, tokenised content,
optional embedding vector, optional image reference.  A missing or empty
image_id and a missing vector correspond to Python falsy values. -/
structure Chunk where
  doc_id : String
  content_ltks : String
  vector : Option (List Int)
  image_id : Option String
deriving Repr, DecidableEq

/-- One doc_aggs entry of a retrieval result. -/
structure DocAgg where
  doc_id : String
  doc_name : String
  count : Nat
deriving Repr, DecidableEq

/-- RetrievalResult: the kbinfos dict built at line 169 and returned by the
retriever. -/
structure KbInfos where
  total : Nat
  chunks : List Chunk
  doc_aggs : List DocAgg
deriving Repr, DecidableEq

/-- Fragment of answer text under the citation-marker grammar.  A marker
fragment is one occurrence matched by the pattern hash-hash digits
dollar-dollar; a text fragment is a maximal stretch containing no such
occurrence.  This is the embedding of the regex decomposition used by
re.finditer at line 250 and re.sub at line 279. -/
inductive Frag
| text (s : String)
| marker (i : Nat)
deriving Repr, DecidableEq

/-- Decide whether a fragment is a citation marker. -/
def Frag.isMarker : Frag → Bool
| .text _ => false
| .marker _ => true

/-- Render a fragment back to its exact source text. -/
def renderFrag : Frag → String
| .text s => s
| .marker i => "##" ++ toString i ++ "$$"

/-- Render a fragment list to the full answer text. -/
def renderFrags (fs : List Frag) : String :=
  String.join (fs.map renderFrag)

/-- Generated model answer: an optional reasoning segment (the text before a
unique closing reasoning tag) and the body as a fragment list.  This embeds
the split on the closing think tag at lines 227-231: think is present exactly
when the raw text splits in two at that tag. -/
structure GenAnswer where
  think : Option String
  body : List Frag
deriving Repr, DecidableEq

/-- Render a generated answer to the raw text the model produced. -/
def renderAnswer (a : GenAnswer) : String :=
  (match a.think with
   | some t => t ++ "</think>"
   | none => "") ++ renderFrags a.body

/-- Reference payload of a yielded envelope.  The source uses an empty dict
for streaming deltas, an empty list for answers that skipped citation
resolution, the kbinfos shape for the grounded path, and a reduced
chunks/doc_aggs shape for the tabular path. -/
inductive Ref
| dict0
| list0
| kb (chunks : List Chunk) (docAggs : List DocAgg) (total : Nat)
| sqlRef (chunks : List (String × String)) (docAggs : List DocAgg)
deriving Repr, DecidableEq

/-- Chunks carried by a kb-shaped reference (empty for the other shapes). -/
def Ref.kbChunks : Ref → List Chunk
| .kb cs _ _ => cs
| _ => []

/-- Doc aggregations carried by a kb-shaped reference. -/
def Ref.kbDocAggs : Ref → List DocAgg
| .kb _ ds _ => ds
| _ => []

/-- AnswerEnvelope: one yielded item.  The prompt trace and created_at fields
are elided (wall-clock content). -/
structure Envelope where
  answer : String
  reference : Ref
  audio : Option String
deriving Repr, DecidableEq

/-! ## TTS helper (lines 454-460) -/

/-- External TTS adapter: maps text to a lazy sequence of audio byte chunks,
embedded as a list of byte lists. -/
def TtsModel : Type := String → List (List Nat)

/-- Hex digit for a nibble, as produced by binascii.hexlify. -/
def hexDigit (n : Nat) : Char :=
  if n < 10 then Char.ofNat (48 + n) else Char.ofNat (87 + n)

/-- Hexlify a byte sequence (two lowercase hex digits per byte). -/
def hexlify (bs : List Nat) : String :=
  String.mk ((bs.map (fun b => [hexDigit (b / 16 % 16), hexDigit (b % 16)])).flatten)

/-- Embedding of tts (lines 454-460): None without a model or on empty text,
otherwise the hexlified concatenation of all synthesized chunks. -/
def tts (mdl : Option TtsModel) (text : String) : Option String :=
  match mdl with
  | none => none
  | some m => if text = "" then none else some (hexlify ((m text).flatten))

/-! ## CitationResolver: the inner steps of decorate_answer (lines 223-313) -/

/-- Collection of cited chunk indices from markers already present in the
answer (lines 250-253): every marker index strictly below the chunk count is
added to the set; the set is embedded as a duplicate-free list in insertion
order. -/
def citedIdxsGo (n : Nat) : List Frag → List Nat → List Nat
| [], acc => acc
| .text _ :: fs, acc => citedIdxsGo n fs acc
| .marker i :: fs, acc =>
  citedIdxsGo n fs (if i < n ∧ i ∉ acc then acc ++ [i] else acc)

/-- Cited chunk indices of an answer body against n retrieved chunks. -/
def citedIdxs (n : Nat) (fs : List Frag) : List Nat :=
  citedIdxsGo n fs []

/-- Storage endpoint configuration consumed for image URL construction
(MINIO_CONFIG). -/
structure ImgCfg where
  secure : Bool
  visitPoint : String
deriving Repr, DecidableEq

/-- Image URL built at lines 266-267. -/
def imgUrl (cfg : ImgCfg) (path : String) : String :=
  (if cfg.secure then "https" else "http") ++ "://" ++ cfg.visitPoint ++ "/" ++ path

/-- Mutable state of the image-insertion rewrite: the set of already embedded
URLs and the index-to-URL record, both in insertion order. -/
structure ImgState where
  processed : List String
  inserted : List (Nat × String)
deriving Repr, DecidableEq

/-- The inline image markup appended after a marker (line 276). -/
def imgMarkup (url : String) : String :=
  "\n\n<img src=\"" ++ url ++ "\" alt=\"" ++ url ++ "\" style=\"max-width:800px;\">"

/-- One step of the re.sub rewrite insert_image_markdown (lines 256-276):
a marker whose index is out of range, or whose chunk has a falsy image_id, or
whose URL was already embedded, is returned unchanged; otherwise the image
markup is appended right after the marker and the state records the URL. -/
def insertImageStep (chunks : List Chunk) (cfg : ImgCfg) (st : ImgState) :
    Frag → ImgState × List Frag
| .text s => (st, [.text s])
| .marker i =>
  match chunks[i]? with
  | none => (st, [.marker i])
  | some ck =>
    match ck.image_id with
    | none => (st, [.marker i])
    | some p =>
      if p = "" then (st, [.marker i])
      else
        let url := imgUrl cfg p
        if url ∈ st.processed then (st, [.marker i])
        else (⟨st.processed ++ [url], st.inserted ++ [(i, url)]⟩,
              [.marker i, .text (imgMarkup url)])

/-- Full image-insertion rewrite over an answer body (line 279). -/
def insertImages (chunks : List Chunk) (cfg : ImgCfg) (fs : List Frag) :
    ImgState × List Frag :=
  fs.foldl
    (fun acc f =>
      let step := insertImageStep chunks cfg acc.1 f
      (step.1, acc.2 ++ step.2))
    (⟨[], []⟩, [])

/-- Doc ids of the cited chunks (line 282), deduplicated as the source builds
a set.  An index with no chunk is skipped here; the source would raise on it,
and every index produced by the marker scan is in range by construction. -/
def citedDocIds (chunks : List Chunk) (idxs : List Nat) : List String :=
  (idxs.filterMap (fun i => (chunks[i]?).map Chunk.doc_id)).dedup

/-- Doc aggregation filter of chat.decorate_answer (lines 283-286): keep the
documents whose id was cited, falling back to the full list when the filter
comes out empty. -/
def chatRecallDocs (aggs : List DocAgg) (docIds : List String) : List DocAgg :=
  let kept := aggs.filter (fun d => d.doc_id ∈ docIds)
  if kept.isEmpty then aggs else kept

/-- Doc aggregation filter of ask.decorate_answer (lines 529-532), textually
the same computation as the chat variant. -/
def askRecallDocs (aggs : List DocAgg) (docIds : List String) : List DocAgg :=
  let kept := aggs.filter (fun d => d.doc_id ∈ docIds)
  if kept.isEmpty then aggs else kept

/-- Python truthiness of a chunk vector: absent and empty vectors are falsy. -/
def vecTruthy : Option (List Int) → Bool
| none => false
| some [] => false
| some (_ :: _) => true

/-- Vector-stripping step applied to each reference chunk (lines 289-291 and
534-536): the vector entry is deleted when it is truthy. -/
def stripRefChunk (c : Chunk) : Chunk :=
  if vecTruthy c.vector then { c with vector := none } else c

/-- Guidance suffix appended on credential failures (line 295). -/
def apiKeyMsg : String :=
  " Please set LLM API-Key in \x27User Setting -> Model providers -> API-Key\x27"

/-- Detection of a credential failure in the answer text (line 294). -/
def hasInvalidKey (answer : String) : Bool :=
  containsSub (lowerL answer.data) "invalid key".data ∨
  containsSub (lowerL answer.data) "invalid api".data

/-- External citation-insertion capability of the retriever
(retriever.insert_citations): returns the annotated body and the cited chunk
indices. -/
def CiteOracle : Type := List Frag → List Frag × List Nat

/-- Embedding of chat.decorate_answer (lines 223-313), with the timing trace
and prompt bookkeeping elided.  Citation resolution runs only when knowledge
was used and both quote switches are on; markers already present are parsed
directly, otherwise the retriever inserts them; images are inlined; doc
aggregations are filtered with fallback; vectors are stripped from the
reference.  The credential-failure suffix applies on every path. -/
def decorate_answer (quoteCfg quoteKw : Bool) (knowledges : List String)
    (kbinfos : KbInfos) (cite : CiteOracle) (icfg : ImgCfg)
    (ans : GenAnswer) : Envelope :=
  let thinkStr :=
    match ans.think with
    | some t => t ++ "</think>"
    | none => ""
  let citeOn := ¬knowledges.isEmpty ∧ (quoteCfg ∧ quoteKw)
  let bodyRefs :=
    if citeOn then
      let parsed :=
        if (ans.body.any Frag.isMarker) = true then
          (ans.body, citedIdxs kbinfos.chunks.length ans.body)
        else cite ans.body
      let body2 := (insertImages kbinfos.chunks icfg parsed.1).2
      let docIds := citedDocIds kbinfos.chunks parsed.2
      let aggs := chatRecallDocs kbinfos.doc_aggs docIds
      (body2, Ref.kb (kbinfos.chunks.map stripRefChunk) aggs kbinfos.total)
    else (ans.body, Ref.list0)
  let answer := renderFrags bodyRefs.1
  let answer := if hasInvalidKey answer then answer ++ apiKeyMsg else answer
  { answer := thinkStr ++ answer, reference := bodyRefs.2, audio := none }

/-! ## SQLFallbackEngine: use_sql (lines 344-451) -/

/-- Result of the external tabular retrieval sql_retrieval: an optional error
message, the ordered column names, and the rows as cell strings.  The source
reads only the name entry of each column dict, and str() has been applied to
cells, a Python None cell rendering as the text None. -/
structure SqlTable where
  error : Option String
  columns : List String
  rows : List (List String)
deriving Repr, DecidableEq

/-- Python truthiness of the error entry: absent and empty are falsy. -/
def errTruthy : Option String → Bool
| none => false
| some s => s ≠ ""

/-- Removal of a reasoning segment (line 360): the regex deletes from the
first opening think tag through the last closing think tag that can end a
match; without both, the text is unchanged. -/
def stripThink (l : List Char) : List Char :=
  match occIdxs "<think>".data l with
  | [] => l
  | i :: _ =>
    match ((occIdxs "</think>".data l).filter (fun j => i + 7 ≤ j)).getLast? with
    | none => l
    | some j => l.take i ++ l.drop (j + 8)

/-- Newline collapsing (line 362): every maximal run of carriage returns and
newlines becomes a single space.  The flag records being inside a run. -/
def collapseNL : List Char → Bool → List Char
| [], _ => []
| c :: rest, inRun =>
  if c = '\r' ∨ c = '\n' then
    (if inRun then [] else [' ']) ++ collapseNL rest true
  else c :: collapseNL rest false

/-- Prose discarding (line 363): everything up to and including the last
occurrence of the word select-with-space is replaced by that word, which
amounts to dropping the text before the last occurrence.  After line 362 the
text is a single line, so the dot-any pattern reaches the whole text. -/
def dropToLastSelect (l : List Char) : List Char :=
  match (occIdxs "select ".data l).getLast? with
  | none => l
  | some k => l.drop k

/-- Space collapsing (line 364): runs of spaces become one space. -/
def collapseSpaces : List Char → Bool → List Char
| [], _ => []
| c :: rest, inRun =>
  if c = ' ' then (if inRun then [] else [' ']) ++ collapseSpaces rest true
  else c :: collapseSpaces rest false

/-- Terminator trimming (line 365): the text is cut at the first statement
terminator (ASCII or fullwidth semicolon) or fenced-code marker. -/
def truncTerm (l : List Char) : List Char :=
  match (List.range l.length).find?
      (fun i => decide ((l.drop i).head? = some ';') ∨
                decide ((l.drop i).head? = some '；') ∨
                ("```".data.isPrefixOf (l.drop i))) with
  | none => l
  | some i => l.take i

/-- Sanitization chain of get_table (lines 360-365) over character lists, in
source order: think stripping, lowering, newline collapsing, lowering again,
prose discarding, space collapsing, terminator trimming. -/
def sanitizeSqlL (raw : String) : List Char :=
  truncTerm ((collapseSpaces (dropToLastSelect (lowerL (collapseNL (lowerL (stripThink raw.data)) false))) false))

/-- Aggregate-or-grouping detection (line 368). -/
def hasAggOrGroup (l : List Char) : Bool :=
  containsSub l "sum(".data ∨ containsSub l "avg(".data ∨
  containsSub l "max(".data ∨ containsSub l "min(".data ∨
  containsSub l "group by ".data

/-- Field-list construction for a select-star rewrite (lines 372-378): walk
the field-map keys, skip forbidden ones, and stop before a thirteenth field
is appended. -/
def capFlds : List String → List String → List String → List String
| [], _, acc => acc
| k :: rest, forb, acc =>
  if k ∈ forb then capFlds rest forb acc
  else if acc.length > 11 then acc
  else capFlds rest forb (acc ++ [k])

/-- Column forcing (lines 368-379): without an aggregate or grouping, doc_id
and docnm_kwd are prefixed to an explicit column list, or a select star is
expanded to a capped explicit list. -/
def refineSql (fieldKeys forbidden : List String) (l : List Char) : List Char :=
  if hasAggOrGroup l then l
  else if ¬("select *".data.isPrefixOf l) then
    "select doc_id,docnm_kwd,".data ++ l.drop 6
  else
    "select doc_id,docnm_kwd,".data ++
      (String.intercalate "," (capFlds fieldKeys forbidden [])).data ++ l.drop 8

/-- External-call events inside use_sql: one chat-model call per get_table
invocation, one tabular execution per sanitized statement. -/
inductive SqlEvent
| chatCall
| execCall
deriving Repr, DecidableEq

/-- Outcome of one get_table invocation (lines 357-383): the table and the
refined statement when sanitization passed, nothing otherwise, plus the
events performed.  The chat-model call always happens; the execution only
after a passing sanitization, which is also when tried_times is bumped. -/
structure GetTableOut where
  tbl : Option SqlTable
  sql : Option (List Char)
  events : List SqlEvent
deriving Repr, DecidableEq

/-- Embedding of get_table: sanitize the raw model output, reject statements
that do not start with select-and-space, refine and execute the rest. -/
def getTable (fieldKeys forbidden : List String) (raw : String)
    (exec : List Char → SqlTable) : GetTableOut :=
  let s := sanitizeSqlL raw
  if ¬("select ".data.isPrefixOf s) then ⟨none, none, [.chatCall]⟩
  else
    let sql := refineSql fieldKeys forbidden s
    ⟨some (exec sql), some sql, [.chatCall, .execCall]⟩

/-- Python-level failures of use_sql observable by the caller. -/
inductive PyErr
| keyError (k : String)
| assertError
| attrError
| nameError
deriving Repr, DecidableEq

/-- Markdown label cleanup for a visible column (line 420): the regex removes
everything from a slash to the end of the line and removes fullwidth
parenthesized groups.  Fuel-driven scan for kernel reducibility. -/
def stripLabelGo : Nat → List Char → List Char
| _, [] => []
| 0, l => l
| fuel + 1, c :: rest =>
  if c = '/' then
    stripLabelGo fuel (rest.dropWhile (· ≠ '\n'))
  else if c = '（' then
    let inner := rest.takeWhile (fun d => ¬(d = '（' ∨ d = '）'))
    if inner.length < rest.length ∧ rest.getD inner.length ' ' = '）' ∧ inner ≠ [] then
      stripLabelGo fuel (rest.drop (inner.length + 1))
    else c :: stripLabelGo fuel rest
  else c :: stripLabelGo fuel rest

/-- Label cleanup wrapper. -/
def stripLabel (s : String) : String :=
  String.mk (stripLabelGo s.data.length s.data)

/-- Digit test for the timestamp scrubber. -/
def isDigitCh (c : Char) : Bool := '0' ≤ c ∧ c ≤ '9'

/-- Length matched by the timestamp pattern of line 431 at the current
position, final pipe included: a capital T, three colon-separated two-digit
groups, an optional fractional-seconds-with-Z group, then a pipe. -/
def matchTime (l : List Char) : Option Nat :=
  match l with
  | 'T' :: a :: b :: ':' :: c :: d :: ':' :: e :: f :: rest =>
    if isDigitCh a ∧ isDigitCh b ∧ isDigitCh c ∧ isDigitCh d ∧ isDigitCh e ∧ isDigitCh f then
      match rest with
      | '.' :: r2 =>
        let ds := r2.takeWhile isDigitCh
        if ds.length > 0 then
          match r2.drop ds.length with
          | 'Z' :: '|' :: _ => some (9 + 1 + ds.length + 2)
          | _ => none
        else none
      | '|' :: _ => some 10
      | _ => none
    else none
  | _ => none

/-- Fuel-driven timestamp scrubber (line 431): each match is replaced by a
single pipe, scanning resumes after the match. -/
def stripTimesGo : Nat → List Char → List Char
| _, [] => []
| 0, l => l
| fuel + 1, c :: rest =>
  match matchTime (c :: rest) with
  | some n => '|' :: stripTimesGo fuel (rest.drop (n - 1))
  | none => c :: stripTimesGo fuel rest

/-- Timestamp scrubber wrapper. -/
def stripTimes (s : String) : String :=
  String.mk (stripTimesGo s.data.length s.data)

/-- Row suffixing branches of the markdown renderer (lines 427-430): both
arms of the quota conditional append a row-index citation marker and a
trailing pipe to every row and join on newlines.  The two arms are
transcribed separately, as in the source. -/
def rowsBranch (quota : Bool) (rows : List String) : String :=
  if quota then
    String.intercalate "\n"
      ((rows.enum).map (fun p => p.2 ++ " ##" ++ toString p.1 ++ "$$ |"))
  else
    String.intercalate "\n"
      ((rows.enum).map (fun p => p.2 ++ " ##" ++ toString p.1 ++ "$$ |"))

/-- Tabular answer fragment returned by use_sql: the markdown text and the
reference payload (row chunks and per-document aggregation). -/
structure SqlAnswer where
  answer : String
  chunks : List (String × String)
  aggs : List DocAgg
deriving Repr, DecidableEq

/-- Ordered per-document aggregation (lines 439-443): first occurrence fixes
the name and the order, each row bumps the count. -/
def insertAgg (m : List (String × String × Nat)) (did nm : String) :
    List (String × String × Nat) :=
  if m.any (fun e => e.1 = did) then
    m.map (fun e => if e.1 = did then (e.1, e.2.1, e.2.2 + 1) else e)
  else m ++ [(did, nm, 1)]

/-- Markdown rendering and reference assembly of use_sql (lines 414-451).
The external rmSpace normalizer is an oracle parameter. -/
def renderSqlAnswer (fieldMap : List (String × String)) (rmSp : String → String)
    (quota : Bool) (t : SqlTable) : SqlAnswer :=
  let docidIdx := (List.range t.columns.length).filter (fun i => t.columns.getD i "" = "doc_id")
  let docNameIdx := (List.range t.columns.length).filter (fun i => t.columns.getD i "" = "docnm_kwd")
  let columnIdx := (List.range t.columns.length).filter
    (fun i => ¬(i ∈ docidIdx ∨ i ∈ docNameIdx))
  let lookupLabel := fun (name : String) =>
    match fieldMap.find? (fun p => p.1 = name) with
    | some p => p.2
    | none => name
  let columns := "|" ++
    String.intercalate "|" (columnIdx.map (fun i => stripLabel (lookupLabel (t.columns.getD i "")))) ++
    (if ¬docidIdx.isEmpty then "|Source|" else "|")
  let line := "|" ++ String.intercalate "|" (columnIdx.map (fun _ => "------")) ++
    (if ¬docidIdx.isEmpty then "|------|" else "")
  let rows0 := t.rows.map (fun r =>
    "|" ++ replaceStr (String.intercalate "|" (columnIdx.map (fun i => rmSp (r.getD i "")))) "None" " " ++ "|")
  let rows1 := rows0.filter (fun r => ¬(r.data.filter (fun c => ¬(c = ' ' ∨ c = '|'))).isEmpty)
  let rowsStr := stripTimes (rowsBranch quota rows1)
  if docidIdx.isEmpty ∨ docNameIdx.isEmpty then
    { answer := String.intercalate "\n" [columns, line, rowsStr], chunks := [], aggs := [] }
  else
    let di := docidIdx.getD 0 0
    let ni := docNameIdx.getD 0 0
    let aggs := t.rows.foldl (fun m r => insertAgg m (r.getD di "") (r.getD ni "")) []
    { answer := String.intercalate "\n" [columns, line, rowsStr],
      chunks := t.rows.map (fun r => (r.getD di "", r.getD ni "")),
      aggs := aggs.map (fun e => ⟨e.1, e.2.1, e.2.2⟩) }

/-- Decidable equality for Except values, used to evaluate run outcomes in
concrete witnesses. -/
def exceptDecEq {ε α : Type} [DecidableEq ε] [DecidableEq α] : DecidableEq (Except ε α)
| .ok a, .ok b =>
  if h : a = b then .isTrue (by rw [h]) else .isFalse (by intro hc; cases hc; exact h rfl)
| .error a, .error b =>
  if h : a = b then .isTrue (by rw [h]) else .isFalse (by intro hc; cases hc; exact h rfl)
| .ok _, .error _ => .isFalse (by intro hc; cases hc)
| .error _, .ok _ => .isFalse (by intro hc; cases hc)

instance {ε α : Type} [DecidableEq ε] [DecidableEq α] : DecidableEq (Except ε α) :=
  exceptDecEq

/-- Outcome of one use_sql run: the returned value, or the Python error that
escapes, together with the external-call events in order. -/
structure SqlRun where
  result : Except PyErr (Option SqlAnswer)
  events : List SqlEvent
deriving Repr, DecidableEq

/-- Embedding of use_sql (lines 344-451).  The successive raw chat-model
outputs are an oracle indexed by call number; the tabular execution is an
oracle on statements.  A first sanitization failure returns None with no
execution; an execution error triggers exactly one retry (tried_times is one
at the check, so the bound always passes); a retry whose sanitization fails
leaves the table as Python None, and the error-entry lookup on it at line 411
raises an attribute error. -/
def use_sql (fieldMap : List (String × String)) (forbidden : List String)
    (chatOut : Nat → String) (exec : List Char → SqlTable)
    (rmSp : String → String) (quota : Bool) : SqlRun :=
  let fieldKeys := fieldMap.map (fun p => p.1)
  let g1 := getTable fieldKeys forbidden (chatOut 0) exec
  match g1.tbl with
  | none => ⟨.ok none, g1.events⟩
  | some tbl =>
    let retried :=
      if errTruthy tbl.error then
        let g2 := getTable fieldKeys forbidden (chatOut 1) exec
        (g2.tbl, g1.events ++ g2.events)
      else (some tbl, g1.events)
    match retried.1 with
    | none => ⟨.error .attrError, retried.2⟩
    | some t =>
      if errTruthy t.error ∨ t.rows.length = 0 then ⟨.ok none, retried.2⟩
      else ⟨.ok (some (renderSqlAnswer fieldMap rmSp quota t)), retried.2⟩

/-! ## StreamThrottler: the cumulative-snapshot loops (lines 315-333, 71-81)

Snapshot texts are character lists; the external token counter
num_tokens_from_string is an oracle. -/

/-- State left by the streaming loop of chat (lines 315-331): the last
yielded snapshot, the last processed snapshot, and the (snapshot, delta)
pairs yielded inside the loop, in order. -/
structure StreamLoopOut where
  last : List Char
  answer : List Char
  yields : List (List Char × List Char)
deriving Repr, DecidableEq

/-- Streaming loop of chat (lines 315-331): each snapshot updates the
running answer; the delta against the last yielded snapshot is withheld
below sixteen tokens, otherwise the snapshot is yielded and becomes the new
baseline. -/
def streamLoop (tok : List Char → Nat) :
    List (List Char) → List Char → List Char → StreamLoopOut
| [], last, answer => ⟨last, answer, []⟩
| ans :: rest, last, _ =>
  let delta := ans.drop last.length
  if tok delta < 16 then streamLoop tok rest last ans
  else
    let r := streamLoop tok rest ans ans
    ⟨r.last, r.answer, (ans, delta) :: r.yields⟩

/-- Streamed (snapshot, delta) emissions of chat (lines 315-333): the loop
yields, then the final flush of the remaining delta whenever it is
non-empty (lines 331-333). -/
def chatStreamEmits (tok : List Char → Nat) (snaps : List (List Char)) :
    List (List Char × List Char) :=
  let r := streamLoop tok snaps [] []
  let flush := r.answer.drop r.last.length
  r.yields ++ (if flush.isEmpty then [] else [(r.answer, flush)])

/-- Cumulative-snapshot property of the model adapter contract: starting
from prev, every snapshot extends the previous one. -/
def cumChain : List Char → List (List Char) → Bool
| _, [] => true
| prev, s :: rest => prev.isPrefixOf s && cumChain s rest

/-- State left by the chat_solo streaming loop (lines 71-81), which also
keeps the delta computed in the final iteration: the flush check at line 80
reads that stale loop variable instead of recomputing. -/
structure SoloLoopOut where
  last : List Char
  answer : List Char
  lastDelta : List Char
  yields : List (List Char × List Char)
deriving Repr, DecidableEq

/-- Streaming loop of chat_solo (lines 71-79). -/
def soloLoop (tok : List Char → Nat) :
    List (List Char) → List Char → List Char → List Char → SoloLoopOut
| [], last, answer, lastDelta => ⟨last, answer, lastDelta, []⟩
| ans :: rest, last, _, _ =>
  let delta := ans.drop last.length
  if tok delta < 16 then soloLoop tok rest last ans delta
  else
    let r := soloLoop tok rest ans ans delta
    ⟨r.last, r.answer, r.lastDelta, (ans, delta) :: r.yields⟩

/-! ## ConversationOrchestrator: chat (lines 89-341) and chat_solo
(lines 60-86)

The conversation, dialog configuration and external collaborators are
explicit inputs; the run is the ordered list of yielded envelopes (or the
escaping Python error) plus the ordered external-call events.  Model
bindings (LLMBundle constructions), prompt assembly, message_fit_in and the
keyword-augmented query text are elided: they only shape the text sent to
the oracles.  The thought variable of chat is initialized empty at line 168
and never reassigned, so it is embedded as the empty string. -/

/-- One conversation message. -/
structure Msg where
  role : String
  content : String
deriving Repr, DecidableEq

/-- One declared template parameter of the dialog prompt configuration. -/
structure PromptParam where
  key : String
  optional : Bool
deriving Repr, DecidableEq

/-- Dialog prompt configuration fields the pipeline reads.  The quote,
tts and keyword fields embed the truthiness of prompt_config.get with
their source defaults. -/
structure PromptCfg where
  system : String
  parameters : List PromptParam
  quote : Bool
  useTts : Bool
  keyword : Bool
  emptyResponse : Option String
deriving Repr, DecidableEq

/-- Dialog configuration fields the pipeline reads. -/
structure DialogCfg where
  kb_ids : List String
  promptCfg : PromptCfg
deriving Repr, DecidableEq

/-- External-call events of a chat run, in chronological order. -/
inductive Effect
| sqlChat
| sqlExec
| keywordChat
| retrievalCall
| genChat
deriving Repr, DecidableEq

/-- Environment of external collaborators and configuration consumed by the
pipeline: knowledge-base embedding model lookup, tabular field map and the
forbidden-for-resume field list, the raw chat-model outputs of the SQL path
(indexed by call number), the tabular execution, the rmSpace normalizer, the
retriever, the kb_prompt formatter, the citation-insertion capability, the
generated answer (whole and as cumulative snapshots), the token counter, the
TTS adapter and the image endpoint configuration. -/
structure ChatEnv where
  embdIdOf : String → String
  fieldMap : List (String × String)
  forbidden : List String
  sqlChatOut : Nat → String
  sqlExec : List Char → SqlTable
  rmSp : String → String
  retrieve : KbInfos
  kbPrompt : KbInfos → List String
  cite : CiteOracle
  genAnswer : GenAnswer
  genStream : List GenAnswer
  tok : List Char → Nat
  ttsMdl : Option TtsModel
  imgCfg : ImgCfg

/-- Run outcome of chat or chat_solo. -/
structure ChatRun where
  result : Except PyErr (List Envelope)
  effects : List Effect
deriving Repr, DecidableEq

/-- TTS adapter actually bound by chat and chat_solo (lines 139-141, 67-69):
present only when the prompt configuration switches TTS on. -/
def chatTts (cfg : DialogCfg) (env : ChatEnv) : Option TtsModel :=
  if cfg.promptCfg.useTts then env.ttsMdl else none

/-- Parameter resolution loop (lines 150-156): the knowledge parameter is
skipped; a missing non-optional parameter raises a key error; a missing
optional parameter is blanked out of the system template. -/
def resolveParams : String → List PromptParam → List String → Except PyErr String
| system, [], _ => .ok system
| system, p :: rest, supplied =>
  if p.key = "knowledge" then resolveParams system rest supplied
  else if p.key ∉ supplied ∧ ¬p.optional then .error (.keyError p.key)
  else if p.key ∉ supplied then
    resolveParams (replaceStr system ("\x7b" ++ p.key ++ "\x7d") " ") rest supplied
  else resolveParams system rest supplied

/-- First declared non-optional parameter (other than knowledge) absent from
the supplied keys, if any. -/
def firstMissingRequired (ps : List PromptParam) (supplied : List String) :
    Option String :=
  ps.findSome? (fun p =>
    if p.key ≠ "knowledge" ∧ p.key ∉ supplied ∧ ¬p.optional then some p.key else none)

/-- Tabular short-circuit step of chat (lines 143-148): skipped without a
field map, otherwise one use_sql run whose answer, when present, becomes the
yielded envelope.  The source passes the quote switch of the prompt
configuration as the quota argument. -/
def chatSqlStep (cfg : DialogCfg) (env : ChatEnv) :
    Except PyErr (Option Envelope) × List Effect :=
  if env.fieldMap.isEmpty then (.ok none, [])
  else
    let run := use_sql env.fieldMap env.forbidden env.sqlChatOut env.sqlExec
      env.rmSp cfg.promptCfg.quote
    let evs := run.events.map (fun e =>
      match e with
      | .chatCall => Effect.sqlChat
      | .execCall => Effect.sqlExec)
    match run.result with
    | .error e => (.error e, evs)
    | .ok none => (.ok none, evs)
    | .ok (some sa) => (.ok (some ⟨sa.answer, .sqlRef sa.chunks sa.aggs, none⟩), evs)

/-- Knowledge acquisition step (lines 169-197): without a declared knowledge
parameter the initial empty kbinfos stands and no retrieval happens;
otherwise optional keyword extraction, then one retrieval, then kb_prompt
formatting. -/
def chatKnowledges (cfg : DialogCfg) (env : ChatEnv) :
    KbInfos × List String × List Effect :=
  if "knowledge" ∉ cfg.promptCfg.parameters.map PromptParam.key then
    (⟨0, [], []⟩, [], [])
  else
    let evk := if cfg.promptCfg.keyword then [Effect.keywordChat] else []
    let kb := env.retrieve
    (kb, env.kbPrompt kb, evk ++ [Effect.retrievalCall])

/-- Python truthiness of an optional string. -/
def truthyOptStr : Option String → Bool
| none => false
| some s => s ≠ ""

/-- Generation phase of chat (lines 199-341), entered after the parameter
check: empty-knowledge short circuit with the configured canned response
(line 202-205), else streamed generation through the throttle loop followed
by the decorated terminal envelope (lines 315-334), or a single decorated
envelope whose audio is synthesized over the whole raw answer (lines
335-341). -/
def chatGenerate (cfg : DialogCfg) (stream : Bool) (kwargQuote : Bool)
    (env : ChatEnv) (evs : List Effect) : ChatRun :=
  let kres := chatKnowledges cfg env
  let kbinfos := kres.1
  let knowledges := kres.2.1
  let evs2 := evs ++ kres.2.2
  if knowledges.isEmpty ∧ truthyOptStr cfg.promptCfg.emptyResponse then
    let e := cfg.promptCfg.emptyResponse.getD ""
    ⟨.ok [⟨e, .kb kbinfos.chunks kbinfos.doc_aggs kbinfos.total, tts (chatTts cfg env) e⟩],
      evs2⟩
  else if stream then
    let snaps := env.genStream.map (fun g => (renderAnswer g).data)
    let r := streamLoop env.tok snaps [] []
    let flush := r.answer.drop r.last.length
    let mkE := fun (p : List Char × List Char) =>
      (⟨String.mk p.1, .dict0, tts (chatTts cfg env) (String.mk p.2)⟩ : Envelope)
    let emitted := r.yields.map mkE ++ (if flush.isEmpty then [] else [mkE (r.answer, flush)])
    let finalG := env.genStream.getLastD ⟨none, []⟩
    ⟨.ok (emitted ++ [decorate_answer cfg.promptCfg.quote kwargQuote knowledges kbinfos
        env.cite env.imgCfg finalG]),
      evs2 ++ [.genChat]⟩
  else
    let g := env.genAnswer
    let e := decorate_answer cfg.promptCfg.quote kwargQuote knowledges kbinfos
      env.cite env.imgCfg g
    ⟨.ok [{ e with audio := tts (chatTts cfg env) (renderAnswer g) }], evs2 ++ [.genChat]⟩

/-- Embedding of chat_solo (lines 60-86).  In streaming mode, an exhausted
model sequence leaves the loop variable delta_ans unbound and the flush
check at line 80 raises a name error; otherwise the loop yields throttled
snapshots and the stale final-iteration delta decides one extra flush.  In
non-streaming mode a single envelope carries the whole answer and its
audio. -/
def chat_solo (cfg : DialogCfg) (env : ChatEnv) (stream : Bool) : ChatRun :=
  let ttsm := chatTts cfg env
  if stream then
    match env.genStream with
    | [] => ⟨.error .nameError, [.genChat]⟩
    | _ =>
      let snaps := env.genStream.map (fun g => (renderAnswer g).data)
      let r := soloLoop env.tok snaps [] [] []
      let mkE := fun (p : List Char × List Char) =>
        (⟨String.mk p.1, .dict0, tts ttsm (String.mk p.2)⟩ : Envelope)
      let out := r.yields.map mkE ++
        (if r.lastDelta.isEmpty then [] else [mkE (r.answer, r.lastDelta)])
      ⟨.ok out, [.genChat]⟩
  else
    let a := renderAnswer env.genAnswer
    ⟨.ok [⟨a, .dict0, tts ttsm a⟩], [.genChat]⟩

/-- The user-visible configuration-error envelope of line 110. -/
def embdMismatchEnvelope : Envelope :=
  ⟨"**ERROR**: Knowledge bases use different embedding models.", .list0, none⟩

/-- Embedding of chat (lines 89-341): the trailing-user-message assertion,
the solo delegation for dialogs without knowledge bases, the
embedding-model consistency gate, the tabular short circuit, the parameter
check, and the generation phase.  The lookup of the embedding adapter at
lines 124-126 cannot fail in this model (the adapter is a total oracle), so
the LookupError branch is unreachable and elided. -/
def chat (dialog : DialogCfg) (messages : List Msg) (stream : Bool)
    (kwargKeys : List String) (kwargQuote : Bool) (env : ChatEnv) : ChatRun :=
  if (messages.getLast?.map Msg.role) ≠ some "user" then ⟨.error .assertError, []⟩
  else if dialog.kb_ids.isEmpty then chat_solo dialog env stream
  else
    let embList := (dialog.kb_ids.map env.embdIdOf).dedup
    if embList.length ≠ 1 then ⟨.ok [embdMismatchEnvelope], []⟩
    else
      let sq := chatSqlStep dialog env
      match sq.1 with
      | .error e => ⟨.error e, sq.2⟩
      | .ok (some a) => ⟨.ok [a], sq.2⟩
      | .ok none =>
        match resolveParams dialog.promptCfg.system dialog.promptCfg.parameters kwargKeys with
        | .error e => ⟨.error e, sq.2⟩
        | .ok _ => chatGenerate dialog stream kwargQuote env sq.2

/-! ## Helper lemmas for the streaming throttle -/

/-- Every delta yielded inside the streaming loop passed the sixteen-token
gate. -/
lemma streamLoop_minTok (tok : List Char → Nat) :
    ∀ (snaps : List (List Char)) (last answer : List Char),
      ∀ p ∈ (streamLoop tok snaps last answer).yields, 16 ≤ tok p.2 := by
  intro snaps
  induction snaps with
  | nil => intro last answer p hp; simp [streamLoop] at hp
  | cons ans rest ih =>
    intro last answer p hp
    by_cases h : tok (ans.drop last.length) < 16
    · simp only [streamLoop, if_pos h] at hp
      exact ih last ans p hp
    · simp only [streamLoop, if_neg h, List.mem_cons] at hp
      rcases hp with hp | hp
      · subst hp; exact Nat.le_of_not_lt h
      · exact ih ans ans p hp

/-- Prefix chains are stable under shrinking the base. -/
lemma cumChain_mono {prev base : List Char} {snaps : List (List Char)}
    (hc : cumChain base snaps = true) (hp : prev <+: base) :
    cumChain prev snaps = true := by
  cases snaps with
  | nil => simp [cumChain]
  | cons s rest =>
    simp only [cumChain, Bool.and_eq_true] at hc ⊢
    refine ⟨?_, hc.2⟩
    rw [List.isPrefixOf_iff_prefix] at hc ⊢
    exact hp.trans hc.1

/-- A prefix followed by the dropped remainder reassembles the whole list. -/
lemma append_drop_of_pre {l₁ l₂ : List Char} (h : l₁ <+: l₂) :
    l₁ ++ l₂.drop l₁.length = l₂ := by
  conv_rhs => rw [← List.take_append_drop l₁.length l₂]
  rw [← List.prefix_iff_eq_take.mp h]

/-- Telescoping of the streaming loop under the cumulative-snapshot
contract: the base followed by all yielded deltas is the last yielded
snapshot, the running answer ends at the final snapshot, and the last
yielded snapshot remains one of its prefixes. -/
lemma streamLoop_concat (tok : List Char → Nat) :
    ∀ (snaps : List (List Char)) (last answer : List Char),
      cumChain last snaps = true → last <+: answer →
      let r := streamLoop tok snaps last answer
      last ++ (r.yields.map Prod.snd).flatten = r.last ∧
      r.answer = snaps.getLastD answer ∧ r.last <+: r.answer := by
  intro snaps
  induction snaps with
  | nil =>
    intro last answer _ hpre
    exact ⟨by simp [streamLoop], by simp [streamLoop, List.getLastD], by simpa [streamLoop] using hpre⟩
  | cons ans rest ih =>
    intro last answer hc hpre
    simp only [cumChain, Bool.and_eq_true, List.isPrefixOf_iff_prefix] at hc
    obtain ⟨hla, hrest⟩ := hc
    by_cases h : tok (ans.drop last.length) < 16
    · have := ih last ans (cumChain_mono hrest hla) hla
      simpa only [streamLoop, if_pos h, List.getLastD_cons] using this
    · have := ih ans ans hrest (List.prefix_refl ans)
      obtain ⟨h1, h2, h3⟩ := this
      refine ⟨?_, ?_, ?_⟩
      · simp only [streamLoop, if_neg h, List.map_cons, List.flatten_cons]
        rw [← List.append_assoc, append_drop_of_pre hla, h1]
      · simpa only [streamLoop, if_neg h, List.getLastD_cons] using h2
      · simpa only [streamLoop, if_neg h] using h3

/-- With a default carrying the loop baseline, the snapshot of the last
yielded pair is the final baseline of the loop. -/
lemma streamLoop_last_snapshot (tok : List Char → Nat) :
    ∀ (snaps : List (List Char)) (last answer d : List Char),
      ((streamLoop tok snaps last answer).yields.getLastD (last, d)).1 =
        (streamLoop tok snaps last answer).last := by
  intro snaps
  induction snaps with
  | nil => intro last answer d; simp [streamLoop, List.getLastD]
  | cons ans rest ih =>
    intro last answer d
    by_cases h : tok (ans.drop last.length) < 16
    · simpa only [streamLoop, if_pos h] using ih last ans d
    · simp only [streamLoop, if_neg h, List.getLastD_cons]
      exact ih ans ans (ans.drop last.length)

/-! ## Claim theorems -/

/-- C3: for every cumulative snapshot sequence consumed by the streaming
branch of chat, every delta yielded inside the loop (all emissions except
the final flush) counts at least sixteen tokens; the concatenation of all
emitted deltas equals the final cumulative answer, which is also the answer
carried by the last streamed envelope; and the final flush is emitted
exactly when the remaining delta is non-empty, regardless of its size. -/
theorem chat_stream_throttle (tok : List Char → Nat) (snaps : List (List Char))
    (hc : cumChain [] snaps = true) :
    (∀ p ∈ (streamLoop tok snaps [] []).yields, 16 ≤ tok p.2) ∧
    ((chatStreamEmits tok snaps).map Prod.snd).flatten = snaps.getLastD [] ∧
    ((chatStreamEmits tok snaps).getLastD (snaps.getLastD [], [])).1 = snaps.getLastD [] ∧
    (¬((streamLoop tok snaps [] []).answer.drop (streamLoop tok snaps [] []).last.length).isEmpty →
      chatStreamEmits tok snaps = (streamLoop tok snaps [] []).yields ++
        [((streamLoop tok snaps [] []).answer,
          (streamLoop tok snaps [] []).answer.drop (streamLoop tok snaps [] []).last.length)]) := by
  obtain ⟨h1, h2, h3⟩ := streamLoop_concat tok snaps [] [] hc List.nil_prefix
  rw [List.nil_append] at h1
  set r := streamLoop tok snaps [] [] with hr
  have hflushEq : ∀ hfe : r.answer.drop r.last.length = [], r.answer = r.last := by
    intro hfe
    have := append_drop_of_pre h3
    rw [hfe, List.append_nil] at this
    exact this.symm
  refine ⟨streamLoop_minTok tok snaps [] [], ?_, ?_, ?_⟩
  · by_cases hf : (r.answer.drop r.last.length).isEmpty
    · have hfe : r.answer.drop r.last.length = [] := by simpa [List.isEmpty_iff] using hf
      simp only [chatStreamEmits, ← hr, hfe, List.isEmpty_nil, if_pos trivial]
      rw [List.append_nil, ← h2, hflushEq hfe]
      simpa using h1
    · simp only [chatStreamEmits, ← hr, if_neg hf]
      rw [List.map_append, List.flatten_append, ← h2]
      simp only [List.map_cons, List.map_nil, List.flatten_cons, List.flatten_nil,
        List.append_nil]
      rw [h1, append_drop_of_pre h3]
  · by_cases hf : (r.answer.drop r.last.length).isEmpty
    · have hfe : r.answer.drop r.last.length = [] := by simpa [List.isEmpty_iff] using hf
      simp only [chatStreamEmits, ← hr, hfe, List.isEmpty_nil, if_pos trivial, List.append_nil]
      rw [← h2, hflushEq hfe]
      cases hy : r.yields with
      | nil => simp [List.getLastD]
      | cons y ys =>
        have hlemma := streamLoop_last_snapshot tok snaps [] [] []
        rw [← hr, hy] at hlemma
        rw [List.getLastD_eq_getLast?] at hlemma ⊢
        simpa using hlemma
    · simp only [chatStreamEmits, ← hr, if_neg hf]
      rw [List.getLastD_eq_getLast?, List.getLast?_concat]
      simpa using h2
  · intro hne
    simp only [chatStreamEmits, ← hr, if_neg hne]

/-- Concrete cumulative snapshot sequence: a large first delta, then two
small increments whose joint tail is flushed at the end. -/
def snapsW : List (List Char) :=
  ["aaaaaaaaaaaaaaaaaaaa".data,
   "aaaaaaaaaaaaaaaaaaaabbbbbbbbbb".data,
   "aaaaaaaaaaaaaaaaaaaabbbbbbbbbbccc".data]

/-- Witness for C3 at a concrete snapshot sequence with the character-count
token oracle. -/
theorem chat_stream_throttle_witness :
    cumChain [] snapsW = true ∧
    ((∀ p ∈ (streamLoop List.length snapsW [] []).yields, 16 ≤ List.length p.2) ∧
    ((chatStreamEmits List.length snapsW).map Prod.snd).flatten = snapsW.getLastD [] ∧
    ((chatStreamEmits List.length snapsW).getLastD (snapsW.getLastD [], [])).1 =
      snapsW.getLastD [] ∧
    (¬((streamLoop List.length snapsW [] []).answer.drop
        (streamLoop List.length snapsW [] []).last.length).isEmpty →
      chatStreamEmits List.length snapsW = (streamLoop List.length snapsW [] []).yields ++
        [((streamLoop List.length snapsW [] []).answer,
          (streamLoop List.length snapsW [] []).answer.drop
            (streamLoop List.length snapsW [] []).last.length)])) :=
  ⟨by decide, chat_stream_throttle List.length snapsW (by decide)⟩

/-- Out-of-range marker indices never enter the cited-index accumulator. -/
lemma citedIdxsGo_out_of_range {n i : Nat} (h : n ≤ i) :
    ∀ (gs : List Frag) (acc : List Nat), i ∉ acc → i ∉ citedIdxsGo n gs acc := by
  intro gs
  induction gs with
  | nil => intro acc hacc; simpa [citedIdxsGo] using hacc
  | cons g rest ih =>
    intro acc hacc
    cases g with
    | text s => simpa only [citedIdxsGo] using ih acc hacc
    | marker j =>
      simp only [citedIdxsGo]
      split
      next hj =>
        refine ih _ ?_
        simp only [List.mem_append, List.mem_singleton]
        rintro (hin | rfl)
        · exact hacc hin
        · exact Nat.not_lt.mpr h hj.1
      next => exact ih acc hacc

/-- C1: a citation marker whose index is at or beyond the chunk count is
inert: the index is not collected into the cited-chunk set used for doc_aggs
filtering, and the image-insertion rewrite maps the marker to itself with no
state change. -/
theorem out_of_range_marker_inert (chunks : List Chunk) (icfg : ImgCfg)
    (st : ImgState) (fs : List Frag) (i : Nat) (h : chunks.length ≤ i) :
    i ∉ citedIdxs chunks.length fs ∧
    insertImageStep chunks icfg st (.marker i) = (st, [.marker i]) := by
  refine ⟨citedIdxsGo_out_of_range h fs [] (List.not_mem_nil i), ?_⟩
  simp [insertImageStep, List.getElem?_eq_none h]

/-- Witness for C1 at a concrete out-of-range marker. -/
theorem out_of_range_marker_inert_witness :
    ([⟨"d1", "t", some [1], some "p.png"⟩] : List Chunk).length ≤ 5 ∧
    (5 ∉ citedIdxs ([⟨"d1", "t", some [1], some "p.png"⟩] : List Chunk).length
        [.text "x", .marker 5] ∧
     insertImageStep [⟨"d1", "t", some [1], some "p.png"⟩] ⟨false, "h"⟩ ⟨[], []⟩
        (.marker 5) = (⟨[], []⟩, [.marker 5])) :=
  ⟨by decide,
   out_of_range_marker_inert [⟨"d1", "t", some [1], some "p.png"⟩] ⟨false, "h"⟩
     ⟨[], []⟩ [.text "x", .marker 5] 5 (by decide)⟩

/-- The chat-side doc aggregation filter preserves non-emptiness. -/
lemma chatRecallDocs_ne_nil {aggs : List DocAgg} (hne : aggs ≠ []) (ids : List String) :
    chatRecallDocs aggs ids ≠ [] := by
  unfold chatRecallDocs
  dsimp only
  split
  · exact hne
  next hk =>
    intro hc
    exact hk (by simp [hc])

/-- The ask-side doc aggregation filter preserves non-emptiness. -/
lemma askRecallDocs_ne_nil {aggs : List DocAgg} (hne : aggs ≠ []) (ids : List String) :
    askRecallDocs aggs ids ≠ [] := by
  unfold askRecallDocs
  dsimp only
  split
  · exact hne
  next hk =>
    intro hc
    exact hk (by simp [hc])

/-- C2: when the retrieval result has a non-empty document list, the doc
aggregation filter of both decorate_answer closures never comes out empty
(filtered when citations matched, the full list otherwise), and with
citations enabled the reference of the chat decorate_answer envelope
carries a non-empty doc_aggs. -/
theorem resolved_doc_aggs_nonempty (kbinfos : KbInfos) (knowledges : List String)
    (cite : CiteOracle) (icfg : ImgCfg) (ans : GenAnswer) (idsC idsA : List String)
    (hne : kbinfos.doc_aggs ≠ []) (hk : ¬knowledges.isEmpty) :
    chatRecallDocs kbinfos.doc_aggs idsC ≠ [] ∧
    askRecallDocs kbinfos.doc_aggs idsA ≠ [] ∧
    (decorate_answer true true knowledges kbinfos cite icfg ans).reference.kbDocAggs ≠ [] := by
  refine ⟨chatRecallDocs_ne_nil hne idsC, askRecallDocs_ne_nil hne idsA, ?_⟩
  simp only [decorate_answer]
  rw [if_pos ⟨hk, trivial, trivial⟩]
  exact chatRecallDocs_ne_nil hne _

/-- Witness for C2 at a concrete retrieval result with no citation match. -/
theorem resolved_doc_aggs_nonempty_witness :
    (⟨1, [⟨"d1", "t", some [1], none⟩], [⟨"d1", "Doc", 1⟩]⟩ : KbInfos).doc_aggs ≠ [] ∧
    ¬(["k"] : List String).isEmpty ∧
    (chatRecallDocs [⟨"d1", "Doc", 1⟩] ["zz"] ≠ [] ∧
     askRecallDocs [⟨"d1", "Doc", 1⟩] [] ≠ [] ∧
     (decorate_answer true true ["k"] ⟨1, [⟨"d1", "t", some [1], none⟩], [⟨"d1", "Doc", 1⟩]⟩
        (fun fs => (fs, [])) ⟨false, "h"⟩ ⟨none, [.text "hello"]⟩).reference.kbDocAggs ≠ []) :=
  ⟨by decide, by decide,
   resolved_doc_aggs_nonempty ⟨1, [⟨"d1", "t", some [1], none⟩], [⟨"d1", "Doc", 1⟩]⟩ ["k"]
     (fun fs => (fs, [])) ⟨false, "h"⟩ ⟨none, [.text "hello"]⟩ ["zz"] []
     (by decide) (by decide)⟩

/-- C5: when the sanitized first model output does not start with the word
select, use_sql returns None after the single chat call: no execution, no
retry. -/
theorem sql_reject_no_retry (fieldMap : List (String × String))
    (forbidden : List String) (chatOut : Nat → String) (exec : List Char → SqlTable)
    (rmSp : String → String) (quota : Bool)
    (h : "select ".data.isPrefixOf (sanitizeSqlL (chatOut 0)) = false) :
    use_sql fieldMap forbidden chatOut exec rmSp quota = ⟨.ok none, [.chatCall]⟩ := by
  unfold use_sql getTable
  simp [h]

/-- Witness for C5 at a concrete refusal text. -/
theorem sql_reject_no_retry_witness :
    "select ".data.isPrefixOf (sanitizeSqlL "I cannot write SQL.") = false ∧
    use_sql [("name", "Name")] [] (fun _ => "I cannot write SQL.")
      (fun _ => ⟨none, [], []⟩) id true = ⟨.ok none, [.chatCall]⟩ :=
  ⟨by decide,
   sql_reject_no_retry [("name", "Name")] [] (fun _ => "I cannot write SQL.")
     (fun _ => ⟨none, [], []⟩) id true (by decide)⟩

/-- C9: the quota-true and quota-false arms of the markdown row renderer are
extensionally equal: both append the row-index citation marker suffix. -/
theorem rows_branches_equal (rows : List String) :
    rowsBranch true rows = rowsBranch false rows := rfl

/-- C4 evaluation: a first statement that executes with an error followed by
a retry whose output fails sanitization.  The run performs exactly one
corrective retry (two chat calls, one execution) but then escapes with an
attribute error from the error-entry lookup on the absent table, instead of
returning None as specified. -/
theorem sql_second_failure_raises :
    use_sql [("name", "Name")] []
      (fun n => if n = 0 then "select name from t" else "sorry")
      (fun _ => ⟨some "syntax error", [], []⟩) id true =
    ⟨.error .attrError, [.chatCall, .execCall, .chatCall]⟩ := by decide

/-- Python truthiness of a stripped vector is always false. -/
lemma vecTruthy_stripRefChunk (c : Chunk) :
    vecTruthy (stripRefChunk c).vector = false := by
  unfold stripRefChunk
  by_cases h : vecTruthy c.vector = true
  · rw [if_pos h]
    rfl
  · rw [if_neg h]
    simpa using h

/-- A chunk with a falsy vector is a fixed point of the stripping step. -/
lemma stripRefChunk_of_falsy {d : Chunk} (h : vecTruthy d.vector = false) :
    stripRefChunk d = d := by
  unfold stripRefChunk
  rw [h]
  simp

/-- C7 counterexample: a chunk whose vector entry is an empty list is falsy,
so the stripping step leaves the entry in place and the returned reference
carries a chunk with a vector field. -/
theorem reference_vector_field_counterexample :
    ((decorate_answer true true ["k"] ⟨1, [⟨"d1", "t", some [], none⟩], [⟨"d1", "Doc", 1⟩]⟩
        (fun fs => (fs, [])) ⟨false, "h"⟩ ⟨none, [.marker 0]⟩).reference.kbChunks.any
      (fun c => c.vector.isSome)) = true := by decide

/-- C7 amended: every chunk of a reference returned by decorate_answer has a
falsy vector entry (no non-empty vector survives), and the vector-stripping
step is idempotent. -/
theorem reference_vectors_stripped (quoteCfg quoteKw : Bool) (knowledges : List String)
    (kbinfos : KbInfos) (cite : CiteOracle) (icfg : ImgCfg) (ans : GenAnswer) :
    ((decorate_answer quoteCfg quoteKw knowledges kbinfos cite icfg ans).reference.kbChunks.all
      (fun c => !vecTruthy c.vector)) = true ∧
    ∀ c : Chunk, stripRefChunk (stripRefChunk c) = stripRefChunk c := by
  constructor
  · by_cases hco : ¬knowledges.isEmpty ∧ (quoteCfg ∧ quoteKw)
    · simp only [decorate_answer]
      rw [if_pos hco]
      simp only [Ref.kbChunks, List.all_eq_true, List.mem_map]
      rintro c ⟨c0, _, rfl⟩
      simp [vecTruthy_stripRefChunk]
    · simp only [decorate_answer]
      rw [if_neg hco]
      simp [Ref.kbChunks]
  · intro c
    exact stripRefChunk_of_falsy (vecTruthy_stripRefChunk c)

/-- A missing required parameter makes the resolution loop raise the key
error for the first such parameter. -/
lemma resolveParams_error_of_missing :
    ∀ (ps : List PromptParam) (system : String) (supplied : List String) (k : String),
      firstMissingRequired ps supplied = some k →
      resolveParams system ps supplied = .error (.keyError k) := by
  intro ps
  induction ps with
  | nil => intro system supplied k h; simp [firstMissingRequired] at h
  | cons p rest ih =>
    intro system supplied k h
    rw [firstMissingRequired, List.findSome?_cons] at h
    by_cases hcond : p.key ≠ "knowledge" ∧ p.key ∉ supplied ∧ ¬p.optional
    · rw [if_pos hcond] at h
      obtain rfl : p.key = k := by simpa using h
      simp only [resolveParams]
      rw [if_neg hcond.1, if_pos ⟨hcond.2.1, hcond.2.2⟩]
    · rw [if_neg hcond] at h
      have h' : firstMissingRequired rest supplied = some k := h
      by_cases hkn : p.key = "knowledge"
      · simp only [resolveParams]
        rw [if_pos hkn]
        exact ih system supplied k h'
      · by_cases hmem : p.key ∉ supplied
        · have hopt : p.optional = true := by
            by_contra hno
            exact hcond ⟨hkn, hmem, fun hx => hno hx⟩
          simp only [resolveParams]
          rw [if_neg hkn, if_neg (fun hx => hx.2 hopt), if_pos hmem]
          exact ih _ supplied k h'
        · simp only [resolveParams]
          rw [if_neg hkn, if_neg (fun hx => hmem hx.1), if_neg hmem]
          exact ih system supplied k h'

/-- C6 counterexample: a dialog declaring the required parameter name, which
the caller does not supply, together with a configured tabular field map and
a successful SQL fallback.  chat performs a chat-model call inside the
fallback and returns the tabular answer without ever raising the
missing-parameter error. -/
theorem missing_param_counterexample :
    firstMissingRequired [⟨"name", false⟩] [] = some "name" ∧
    chat ⟨["kb1"], ⟨"sys", [⟨"name", false⟩], true, false, false, none⟩⟩ [⟨"user", "hi"⟩]
      true [] true
      { embdIdOf := fun _ => "emb", fieldMap := [("name", "Name")], forbidden := [],
        sqlChatOut := fun _ => "select name from t",
        sqlExec := fun _ => ⟨none, ["name", "doc_id", "docnm_kwd"],
          [["Alice", "d1", "Doc One"], ["Bob", "d1", "Doc One"]]⟩,
        rmSp := id, retrieve := ⟨0, [], []⟩, kbPrompt := fun _ => [],
        cite := fun fs => (fs, []), genAnswer := ⟨none, []⟩, genStream := [],
        tok := List.length, ttsMdl := none, imgCfg := ⟨false, "h"⟩ } =
    ⟨.ok [⟨"|Name|Source|\n|------|------|\n|Alice| ##0$$ |\n|Bob| ##1$$ |",
      .sqlRef [("d1", "Doc One"), ("d1", "Doc One")] [⟨"d1", "Doc One", 2⟩], none⟩],
     [.sqlChat, .sqlExec]⟩ := by
  exact ⟨by decide, by decide⟩

/-- C6 amended: when no tabular field map is configured, a dialog declaring
a non-optional parameter (other than knowledge) absent from the supplied
keyword keys makes chat raise the missing-parameter key error with no
external call performed: no chat-model call, no retrieval, no generation.
With a field map, the SQL fallback and its chat-model call run first and a
successful fallback skips the check entirely. -/
theorem missing_param_raises_without_field_map (dialog : DialogCfg)
    (messages : List Msg) (stream : Bool) (kwargKeys : List String)
    (kwargQuote : Bool) (env : ChatEnv) (k : String)
    (hm : messages.getLast?.map Msg.role = some "user")
    (hkb : ¬dialog.kb_ids.isEmpty)
    (he : ((dialog.kb_ids.map env.embdIdOf).dedup).length = 1)
    (hfm : env.fieldMap = [])
    (hmiss : firstMissingRequired dialog.promptCfg.parameters kwargKeys = some k) :
    chat dialog messages stream kwargKeys kwargQuote env =
      ⟨.error (.keyError k), []⟩ := by
  have hsql : chatSqlStep dialog env = (.ok none, []) := by
    unfold chatSqlStep
    rw [if_pos (by simp [hfm])]
  simp only [chat]
  rw [if_neg (by simp [hm]), if_neg hkb, if_neg (by simp [he]), hsql,
    resolveParams_error_of_missing _ _ _ _ hmiss]

/-- Witness for the amended C6 at a concrete dialog. -/
theorem missing_param_raises_without_field_map_witness :
    ([⟨"user", "hi"⟩] : List Msg).getLast?.map Msg.role = some "user" ∧
    ¬(["kb1"] : List String).isEmpty ∧
    ((["kb1"].map (fun (_ : String) => "emb")).dedup).length = 1 ∧
    firstMissingRequired [⟨"name", false⟩] [] = some "name" ∧
    chat ⟨["kb1"], ⟨"sys", [⟨"name", false⟩], true, false, false, none⟩⟩ [⟨"user", "hi"⟩]
      true [] true
      { embdIdOf := fun _ => "emb", fieldMap := [], forbidden := [],
        sqlChatOut := fun _ => "", sqlExec := fun _ => ⟨none, [], []⟩,
        rmSp := id, retrieve := ⟨0, [], []⟩, kbPrompt := fun _ => [],
        cite := fun fs => (fs, []), genAnswer := ⟨none, []⟩, genStream := [],
        tok := List.length, ttsMdl := none, imgCfg := ⟨false, "h"⟩ } =
    ⟨.error (.keyError "name"), []⟩ :=
  ⟨by decide, by decide, by decide, by decide,
   missing_param_raises_without_field_map
     ⟨["kb1"], ⟨"sys", [⟨"name", false⟩], true, false, false, none⟩⟩ [⟨"user", "hi"⟩]
     true [] true _ "name" (by decide) (by decide) (by decide) (by decide) (by decide)⟩

/-- C8: with at least one knowledge base and more than one distinct
embedding model across the attached knowledge bases, chat yields exactly the
configuration-error envelope, whose answer text contains the words different
embedding models, performs no external call (no retrieval, no model
generation), and raises no exception. -/
theorem embedding_mismatch_single_envelope (dialog : DialogCfg)
    (messages : List Msg) (stream : Bool) (kwargKeys : List String)
    (kwargQuote : Bool) (env : ChatEnv)
    (hm : messages.getLast?.map Msg.role = some "user")
    (hkb : ¬dialog.kb_ids.isEmpty)
    (he : ((dialog.kb_ids.map env.embdIdOf).dedup).length ≠ 1) :
    chat dialog messages stream kwargKeys kwargQuote env =
      ⟨.ok [embdMismatchEnvelope], []⟩ ∧
    containsSub embdMismatchEnvelope.answer.data "different embedding models".data = true := by
  constructor
  · simp only [chat]
    rw [if_neg (by simp [hm]), if_neg hkb, if_pos he]
  · decide

/-- Witness for C8 at a dialog with two knowledge bases on distinct
embedding models. -/
theorem embedding_mismatch_single_envelope_witness :
    ([⟨"user", "hi"⟩] : List Msg).getLast?.map Msg.role = some "user" ∧
    ¬(["kb1", "kb2"] : List String).isEmpty ∧
    ((["kb1", "kb2"].map (fun (k : String) => k)).dedup).length ≠ 1 ∧
    (chat ⟨["kb1", "kb2"], ⟨"sys", [], true, false, false, none⟩⟩ [⟨"user", "hi"⟩]
      true [] true
      { embdIdOf := fun k => k, fieldMap := [], forbidden := [],
        sqlChatOut := fun _ => "", sqlExec := fun _ => ⟨none, [], []⟩,
        rmSp := id, retrieve := ⟨0, [], []⟩, kbPrompt := fun _ => [],
        cite := fun fs => (fs, []), genAnswer := ⟨none, []⟩, genStream := [],
        tok := List.length, ttsMdl := none, imgCfg := ⟨false, "h"⟩ } =
      ⟨.ok [embdMismatchEnvelope], []⟩ ∧
    containsSub embdMismatchEnvelope.answer.data "different embedding models".data = true) :=
  ⟨by decide, by decide, by decide,
   embedding_mismatch_single_envelope
     ⟨["kb1", "kb2"], ⟨"sys", [], true, false, false, none⟩⟩ [⟨"user", "hi"⟩]
     true [] true _ (by decide) (by decide) (by decide)⟩

/-- C10: a non-streaming grounded chat run that reaches generation (the
embedding models agree, the tabular short circuit declines, every required
parameter resolves, and the empty-knowledge canned response does not apply)
yields exactly one envelope: the decorated terminal envelope whose audio is
synthesized over the whole raw answer text, and which is None whenever no
TTS adapter is bound. -/
theorem nonstream_single_decorated_envelope (dialog : DialogCfg)
    (messages : List Msg) (kwargKeys : List String) (kwargQuote : Bool) (env : ChatEnv)
    (hm : messages.getLast?.map Msg.role = some "user")
    (hkb : ¬dialog.kb_ids.isEmpty)
    (he : ((dialog.kb_ids.map env.embdIdOf).dedup).length = 1)
    (hsql : (chatSqlStep dialog env).1 = .ok none)
    (hp : ∃ s, resolveParams dialog.promptCfg.system dialog.promptCfg.parameters kwargKeys = .ok s)
    (hne : ¬((chatKnowledges dialog env).2.1.isEmpty ∧
      truthyOptStr dialog.promptCfg.emptyResponse)) :
    chat dialog messages false kwargKeys kwargQuote env =
      ⟨.ok [{ decorate_answer dialog.promptCfg.quote kwargQuote
                (chatKnowledges dialog env).2.1 (chatKnowledges dialog env).1
                env.cite env.imgCfg env.genAnswer
              with audio := tts (chatTts dialog env) (renderAnswer env.genAnswer) }],
        (chatSqlStep dialog env).2 ++ (chatKnowledges dialog env).2.2 ++ [.genChat]⟩ ∧
    (env.ttsMdl = none → tts (chatTts dialog env) (renderAnswer env.genAnswer) = none) := by
  constructor
  · obtain ⟨s, hs⟩ := hp
    simp only [chat]
    rw [if_neg (by simp [hm]), if_neg hkb, if_neg (by simp [he]), hsql, hs]
    simp only [chatGenerate]
    rw [if_neg hne]
    simp
  · intro h
    simp [chatTts, tts, h]

/-- Concrete environment for the C10 witness: one knowledge base, no field
map, a one-chunk retrieval result and a marker-citing answer. -/
def envC10 : ChatEnv :=
  { embdIdOf := fun _ => "emb", fieldMap := [], forbidden := [],
    sqlChatOut := fun _ => "", sqlExec := fun _ => ⟨none, [], []⟩,
    rmSp := id,
    retrieve := ⟨1, [⟨"d1", "tok", some [1], none⟩], [⟨"d1", "Doc One", 1⟩]⟩,
    kbPrompt := fun kb => kb.chunks.map Chunk.content_ltks,
    cite := fun fs => (fs, []),
    genAnswer := ⟨none, [.text "Answer ", .marker 0]⟩, genStream := [],
    tok := List.length, ttsMdl := none, imgCfg := ⟨false, "minio.local"⟩ }

/-- Concrete dialog for the C10 witness. -/
def dlgC10 : DialogCfg :=
  ⟨["kb1"], ⟨"sys", [⟨"knowledge", false⟩], true, false, false, none⟩⟩

/-- Terminal envelope the C10 witness run must yield. -/
def envelopeC10 : Envelope :=
  { decorate_answer true true (chatKnowledges dlgC10 envC10).2.1
      (chatKnowledges dlgC10 envC10).1 envC10.cite envC10.imgCfg envC10.genAnswer
    with audio := tts (chatTts dlgC10 envC10) (renderAnswer envC10.genAnswer) }

/-- Witness for C10 at a concrete grounded non-streaming run. -/
theorem nonstream_single_decorated_envelope_witness :
    ([⟨"user", "hi"⟩] : List Msg).getLast?.map Msg.role = some "user" ∧
    ¬dlgC10.kb_ids.isEmpty ∧
    ((dlgC10.kb_ids.map envC10.embdIdOf).dedup).length = 1 ∧
    (chatSqlStep dlgC10 envC10).1 = .ok none ∧
    (∃ s, resolveParams dlgC10.promptCfg.system dlgC10.promptCfg.parameters [] = .ok s) ∧
    ¬((chatKnowledges dlgC10 envC10).2.1.isEmpty ∧
      truthyOptStr dlgC10.promptCfg.emptyResponse) ∧
    (chat dlgC10 [⟨"user", "hi"⟩] false [] true envC10 =
      ⟨.ok [envelopeC10],
        (chatSqlStep dlgC10 envC10).2 ++ (chatKnowledges dlgC10 envC10).2.2 ++ [.genChat]⟩ ∧
    (envC10.ttsMdl = none →
      tts (chatTts dlgC10 envC10) (renderAnswer envC10.genAnswer) = none)) :=
  ⟨by decide, by decide, by decide, by decide, ⟨"sys", by decide⟩, by decide,
   nonstream_single_decorated_envelope dlgC10 [⟨"user", "hi"⟩] [] true envC10
     (by decide) (by decide) (by decide) (by decide) ⟨"sys", by decide⟩ (by decide)⟩

end RagflowPlus
